import Mathlib

/-!
Formal model of the kernel-quadrature estimators of `utils/kernel_means.py`.

The estimators pair a kernel family with a reference measure: each forms the
Gram matrix of a sample set, regularizes it by `eps = 1e-6` on the diagonal,
inverts it, and contracts the inverse with a closed-form kernel-mean-embedding
vector and the function values.  The low-level kernel and embedding functions
(`my_RBF`, `kme_RBF_Gaussian`, ...) live in the external module `utils.kernels`
and are consumed as black boxes, so the model abstracts over them through the
interface `KernelLib`.  Machine floats are modelled by an arbitrary linear
ordered field (instantiated at `ℚ` for concrete evaluations and usable at `ℝ`);
`jnp.linalg.inv` is modelled by the adjugate formula `matInv`, which agrees
with the true inverse whenever the determinant is nonzero, and `jnp.median` by
`npMedian` (sort, middle element, averaging the two middle elements for even
length).  `jax.vmap` raising on an `in_axes` tuple whose length differs from
the arity of the wrapped function is modelled by `vmapCheck` returning `none`.
-/

open Matrix

/-- Interface of the external kernel library `utils.kernels`: pairwise
Gram-matrix constructors `gram(X, Y, lengthscale)` for each kernel family, and
closed-form kernel-mean-embedding vectors `embed(measure_params, lengthscale, X)`
for each kernel/measure pair.  The product kernels take a per-dimension
length-scale vector; the isotropic ones take a scalar. -/
structure KernelLib (F : Type) where
  my_RBF : ∀ {N M D : ℕ}, Matrix (Fin N) (Fin D) F → Matrix (Fin M) (Fin D) F →
    F → Matrix (Fin N) (Fin M) F
  my_log_RBF : ∀ {N M D : ℕ}, Matrix (Fin N) (Fin D) F → Matrix (Fin M) (Fin D) F →
    F → Matrix (Fin N) (Fin M) F
  my_Matern_12 : ∀ {N M D : ℕ}, Matrix (Fin N) (Fin D) F → Matrix (Fin M) (Fin D) F →
    F → Matrix (Fin N) (Fin M) F
  my_Matern_32 : ∀ {N M D : ℕ}, Matrix (Fin N) (Fin D) F → Matrix (Fin M) (Fin D) F →
    F → Matrix (Fin N) (Fin M) F
  my_Matern_12_product : ∀ {N M D : ℕ}, Matrix (Fin N) (Fin D) F →
    Matrix (Fin M) (Fin D) F → (Fin D → F) → Matrix (Fin N) (Fin M) F
  my_Matern_32_product : ∀ {N M D : ℕ}, Matrix (Fin N) (Fin D) F →
    Matrix (Fin M) (Fin D) F → (Fin D → F) → Matrix (Fin N) (Fin M) F
  kme_RBF_Gaussian : ∀ {N D : ℕ}, (Fin D → F) → Matrix (Fin D) (Fin D) F →
    F → Matrix (Fin N) (Fin D) F → Fin N → F
  kme_RBF_uniform : ∀ {N D : ℕ}, F → F → F → Matrix (Fin N) (Fin D) F → Fin N → F
  kme_Matern_32_Gaussian : ∀ {N D : ℕ}, F → Matrix (Fin N) (Fin D) F → Fin N → F
  kme_Matern_12_Gaussian : ∀ {N D : ℕ}, (Fin D → F) → Matrix (Fin N) (Fin D) F → Fin N → F
  kme_Matern_32_Uniform : ∀ {N D : ℕ}, (Fin D → F) → (Fin D → F) → (Fin D → F) →
    Matrix (Fin N) (Fin D) F → Fin N → F
  kme_Matern_12_Uniform : ∀ {N D : ℕ}, F → F → F → Matrix (Fin N) (Fin D) F → Fin N → F
  kme_log_normal_log_RBF : ∀ {N D : ℕ}, F → F → Matrix (Fin N) (Fin D) F → F → Fin N → F

variable {F : Type} [LinearOrderedField F]

/-- The diagonal regularization constant `eps = 1e-6` used by every estimator. -/
def eps : F := 1 / 1000000

/-- Model of `jnp.linalg.inv` over a field: the adjugate formula.  It agrees
with the true inverse whenever the determinant is nonzero (and with Mathlib's
`Matrix.inv` everywhere). -/
def matInv {n : ℕ} (M : Matrix (Fin n) (Fin n) F) : Matrix (Fin n) (Fin n) F :=
  M.det⁻¹ • M.adjugate

/-- The regularized Gram matrix `K + eps * jnp.eye(N)` formed by every
estimator before inversion. -/
def regularize {n : ℕ} (K : Matrix (Fin n) (Fin n) F) : Matrix (Fin n) (Fin n) F :=
  K + (eps : F) • (1 : Matrix (Fin n) (Fin n) F)

/-- Model of `jnp.median` on a one-dimensional array: sort, take the middle
element when the length is odd, and the average of the two middle elements when
the length is even. -/
def npMedian (xs : List F) : F :=
  let s := xs.insertionSort (· ≤ ·)
  if xs.length % 2 = 1 then s.getD (xs.length / 2) 0
  else (s.getD (xs.length / 2 - 1) 0 + s.getD (xs.length / 2) 0) / 2

/-- Column means `X.mean(0)` of the sample matrix. -/
def colMean {N D : ℕ} (X : Matrix (Fin N) (Fin D) F) (j : Fin D) : F :=
  (∑ i, X i j) / (N : F)

/-- The flattened entries of `jnp.abs(X - X.mean(0))`, row major. -/
def absDevList {N D : ℕ} (X : Matrix (Fin N) (Fin D) F) : List F :=
  (List.finRange N).flatMap fun i => (List.finRange D).map fun j => |X i j - colMean X j|

/-- The median heuristic `l = jnp.median(jnp.abs(X - X.mean(0)))`, collapsed
over all entries of the deviation matrix to a single scalar. -/
def medianHeuristic {N D : ℕ} (X : Matrix (Fin N) (Fin D) F) : F :=
  npMedian (absDevList X)

/-- `KQ_RBF_Gaussian(X, f_X, mu_X_theta, var_X_theta)`: isotropic RBF kernel
against a Gaussian measure, median-heuristic length scale. -/
def KQ_RBF_Gaussian {N D : ℕ} (KL : KernelLib F) (X : Matrix (Fin N) (Fin D) F)
    (f_X : Fin N → F) (mu_X_theta : Fin D → F) (var_X_theta : Matrix (Fin D) (Fin D) F) : F :=
  let l : F := medianHeuristic X
  let A : F := 1
  let K := A • KL.my_RBF X X l
  let K_inv := matInv (regularize K)
  let phi := A • KL.kme_RBF_Gaussian mu_X_theta var_X_theta l X
  dotProduct phi (K_inv.mulVec f_X)

/-- `KQ_RBF_Uniform(X, f_X, a, b)`: isotropic RBF kernel against a Uniform
measure with scalar bounds, median-heuristic length scale. -/
def KQ_RBF_Uniform {N D : ℕ} (KL : KernelLib F) (X : Matrix (Fin N) (Fin D) F)
    (f_X : Fin N → F) (a b : F) : F :=
  let A : F := 1
  let l : F := medianHeuristic X
  let K := A • KL.my_RBF X X l
  let K_inv := matInv (regularize K)
  let phi := A • KL.kme_RBF_uniform a b l X
  dotProduct phi (K_inv.mulVec f_X)

/-- `KQ_Matern_32_Gaussian(X, f_X)`: isotropic Matern-3/2 kernel against the
standard normal measure, median-heuristic length scale. -/
def KQ_Matern_32_Gaussian {N D : ℕ} (KL : KernelLib F) (X : Matrix (Fin N) (Fin D) F)
    (f_X : Fin N → F) : F :=
  let A : F := 1
  let l : F := medianHeuristic X
  let K := A • KL.my_Matern_32 X X l
  let K_inv := matInv (regularize K)
  let phi := A • KL.kme_Matern_32_Gaussian l X
  dotProduct phi (K_inv.mulVec f_X)

/-- `KQ_Matern_12_Gaussian(X, f_X)`: product Matern-1/2 kernel against the
standard normal measure, hardcoded per-dimension length scale `1. * jnp.ones(D)`. -/
def KQ_Matern_12_Gaussian {N D : ℕ} (KL : KernelLib F) (X : Matrix (Fin N) (Fin D) F)
    (f_X : Fin N → F) : F :=
  let A : F := 1
  let l : Fin D → F := fun _ => 1
  let K := A • KL.my_Matern_12_product X X l
  let K_inv := matInv (regularize K)
  let phi := A • KL.kme_Matern_12_Gaussian l X
  dotProduct phi (K_inv.mulVec f_X)

/-- `KQ_Matern_32_Uniform(X, f_X, a, b)`: product Matern-3/2 kernel against a
Uniform measure with vector bounds, hardcoded per-dimension length scale
`jnp.ones(D) * 3.0`. -/
def KQ_Matern_32_Uniform {N D : ℕ} (KL : KernelLib F) (X : Matrix (Fin N) (Fin D) F)
    (f_X : Fin N → F) (a b : Fin D → F) : F :=
  let A : F := 1
  let l : Fin D → F := fun _ => 3
  let K := A • KL.my_Matern_32_product X X l
  let K_inv := matInv (regularize K)
  let phi := A • KL.kme_Matern_32_Uniform a b l X
  dotProduct phi (K_inv.mulVec f_X)

/-- `KQ_Matern_12_Uniform(X, f_X, a, b)`: isotropic Matern-1/2 kernel against a
Uniform measure with scalar bounds, median-heuristic length scale. -/
def KQ_Matern_12_Uniform {N D : ℕ} (KL : KernelLib F) (X : Matrix (Fin N) (Fin D) F)
    (f_X : Fin N → F) (a b : F) : F :=
  let A : F := 1
  let l : F := medianHeuristic X
  let K := A • KL.my_Matern_12 X X l
  let K_inv := matInv (regularize K)
  let phi := A • KL.kme_Matern_12_Uniform a b l X
  dotProduct phi (K_inv.mulVec f_X)

/-- `KQ_log_RBF_log_Gaussian(X, f_X, mu, std)`: log-domain RBF kernel against a
log-Gaussian measure, hardcoded scalar length scale `l = 0.1`. -/
def KQ_log_RBF_log_Gaussian {N D : ℕ} (KL : KernelLib F) (X : Matrix (Fin N) (Fin D) F)
    (f_X : Fin N → F) (mu std : F) : F :=
  let l : F := 1 / 10
  let A : F := 1
  let K := A • KL.my_log_RBF X X l
  let K_inv := matInv (regularize K)
  let phi := A • KL.kme_log_normal_log_RBF mu std X l
  dotProduct phi (K_inv.mulVec f_X)

/-- The four-step estimate as the spec words it: form `K = A * kernel(X, X, l)`,
invert `K + eps * I`, form `phi = A * embedding(...)`, and return
`phi^T (K + eps * I)^(-1) f_X`.  Stated over an arbitrary kernel matrix and
embedding vector, for comparison with each estimator. -/
def fourStepEstimate {N : ℕ} (A : F) (Kmat : Matrix (Fin N) (Fin N) F)
    (emb : Fin N → F) (f_X : Fin N → F) : F :=
  dotProduct (A • emb) ((matInv (A • Kmat + (eps : F) • 1)).mulVec f_X)

/-- Models the argument validation of `jax.vmap`: when `in_axes` is a tuple
whose length differs from the number of positional parameters of the wrapped
function, the batched call raises a ValueError before the wrapped function is
ever invoked.  The raised error is `none`; a successful batched call returns
`some` of the stacked per-slice results. -/
def vmapCheck {α : Type} (inAxes : List (Option ℕ)) (numParams : ℕ) (body : α) : Option α :=
  if inAxes.length = numParams then some body else none

/-- The `in_axes` tuple `(None, 0, 0, 0, 0)` of `KQ_RBF_Gaussian_Vectorized`. -/
def inAxes_KQ_RBF_Gaussian_Vectorized : List (Option ℕ) :=
  [none, some 0, some 0, some 0, some 0]

/-- The `in_axes` tuple `(0, 0, None, None)` of `KQ_RBF_Uniform_Vectorized`. -/
def inAxes_KQ_RBF_Uniform_Vectorized : List (Option ℕ) :=
  [some 0, some 0, none, none]

/-- The `in_axes` tuple `(None, 0, 0)` of `KQ_Matern_32_Gaussian_Vectorized`. -/
def inAxes_KQ_Matern_32_Gaussian_Vectorized : List (Option ℕ) :=
  [none, some 0, some 0]

/-- The `in_axes` tuple `(0, 0)` of `KQ_Matern_12_Gaussian_Vectorized`. -/
def inAxes_KQ_Matern_12_Gaussian_Vectorized : List (Option ℕ) :=
  [some 0, some 0]

/-- The `in_axes` tuple `(0, 0, 0, 0)` of `KQ_Matern_32_Uniform_Vectorized`. -/
def inAxes_KQ_Matern_32_Uniform_Vectorized : List (Option ℕ) :=
  [some 0, some 0, some 0, some 0]

/-- The `in_axes` tuple `(0, 0, None, None)` of `KQ_Matern_12_Uniform_Vectorized`. -/
def inAxes_KQ_Matern_12_Uniform_Vectorized : List (Option ℕ) :=
  [some 0, some 0, none, none]

/-- The `in_axes` tuple `(0, 0, 0, 0)` of `KQ_log_RBF_log_Gaussian_Vectorized`. -/
def inAxes_KQ_log_RBF_log_Gaussian_Vectorized : List (Option ℕ) :=
  [some 0, some 0, some 0, some 0]

/-- `KQ_RBF_Gaussian_Vectorized`: `jax.vmap(KQ_RBF_Gaussian, in_axes=(None, 0, 0, 0, 0))`.
The `in_axes` tuple has five entries while `KQ_RBF_Gaussian` takes four
positional arguments, so `jax.vmap` raises before the wrapped function is ever
applied; the body below is unreachable and only fixes the result type the
docstring promises. -/
def KQ_RBF_Gaussian_Vectorized {T N D : ℕ} (KL : KernelLib F)
    (X : Fin T → Matrix (Fin N) (Fin D) F) (f_X : Fin T → Fin N → F)
    (mu_X_theta : Fin T → Fin D → F) (var_X_theta : Fin T → Matrix (Fin D) (Fin D) F) :
    Option (Fin T → F) :=
  vmapCheck inAxes_KQ_RBF_Gaussian_Vectorized 4
    (fun t => KQ_RBF_Gaussian KL (X t) (f_X t) (mu_X_theta t) (var_X_theta t))

/-- `KQ_RBF_Uniform_Vectorized`: `jax.vmap(KQ_RBF_Uniform, in_axes=(0, 0, None, None))`.
`X` and `f_X` are sliced along the batch axis; the scalar bounds `a` and `b`
are shared across the whole batch. -/
def KQ_RBF_Uniform_Vectorized {T N D : ℕ} (KL : KernelLib F)
    (X : Fin T → Matrix (Fin N) (Fin D) F) (f_X : Fin T → Fin N → F) (a b : F) :
    Option (Fin T → F) :=
  vmapCheck inAxes_KQ_RBF_Uniform_Vectorized 4
    (fun t => KQ_RBF_Uniform KL (X t) (f_X t) a b)

/-- `KQ_Matern_32_Gaussian_Vectorized`: `jax.vmap(KQ_Matern_32_Gaussian, in_axes=(None, 0, 0))`.
The `in_axes` tuple has three entries while `KQ_Matern_32_Gaussian` takes two
positional arguments, so `jax.vmap` raises before the wrapped function is ever
applied; the body below is unreachable and only fixes the result type the
docstring promises. -/
def KQ_Matern_32_Gaussian_Vectorized {T N D : ℕ} (KL : KernelLib F)
    (X : Fin T → Matrix (Fin N) (Fin D) F) (f_X : Fin T → Fin N → F) :
    Option (Fin T → F) :=
  vmapCheck inAxes_KQ_Matern_32_Gaussian_Vectorized 2
    (fun t => KQ_Matern_32_Gaussian KL (X t) (f_X t))

/-- `KQ_Matern_12_Gaussian_Vectorized`: `jax.vmap(KQ_Matern_12_Gaussian, in_axes=(0, 0))`. -/
def KQ_Matern_12_Gaussian_Vectorized {T N D : ℕ} (KL : KernelLib F)
    (X : Fin T → Matrix (Fin N) (Fin D) F) (f_X : Fin T → Fin N → F) :
    Option (Fin T → F) :=
  vmapCheck inAxes_KQ_Matern_12_Gaussian_Vectorized 2
    (fun t => KQ_Matern_12_Gaussian KL (X t) (f_X t))

/-- `KQ_Matern_32_Uniform_Vectorized`: `jax.vmap(KQ_Matern_32_Uniform, in_axes=(0, 0, 0, 0))`.
All four arguments, including the vector bounds `a` and `b`, are sliced along
the batch axis. -/
def KQ_Matern_32_Uniform_Vectorized {T N D : ℕ} (KL : KernelLib F)
    (X : Fin T → Matrix (Fin N) (Fin D) F) (f_X : Fin T → Fin N → F)
    (a b : Fin T → Fin D → F) : Option (Fin T → F) :=
  vmapCheck inAxes_KQ_Matern_32_Uniform_Vectorized 4
    (fun t => KQ_Matern_32_Uniform KL (X t) (f_X t) (a t) (b t))

/-- `KQ_Matern_12_Uniform_Vectorized`: `jax.vmap(KQ_Matern_12_Uniform, in_axes=(0, 0, None, None))`.
`X` and `f_X` are sliced along the batch axis; the scalar bounds `a` and `b`
are shared across the whole batch. -/
def KQ_Matern_12_Uniform_Vectorized {T N D : ℕ} (KL : KernelLib F)
    (X : Fin T → Matrix (Fin N) (Fin D) F) (f_X : Fin T → Fin N → F) (a b : F) :
    Option (Fin T → F) :=
  vmapCheck inAxes_KQ_Matern_12_Uniform_Vectorized 4
    (fun t => KQ_Matern_12_Uniform KL (X t) (f_X t) a b)

/-- `KQ_log_RBF_log_Gaussian_Vectorized`: `jax.vmap(KQ_log_RBF_log_Gaussian, in_axes=(0, 0, 0, 0))`.
All four arguments, including the scalars `mu` and `std`, are sliced along the
batch axis. -/
def KQ_log_RBF_log_Gaussian_Vectorized {T N D : ℕ} (KL : KernelLib F)
    (X : Fin T → Matrix (Fin N) (Fin D) F) (f_X : Fin T → Fin N → F)
    (mu std : Fin T → F) : Option (Fin T → F) :=
  vmapCheck inAxes_KQ_log_RBF_log_Gaussian_Vectorized 4
    (fun t => KQ_log_RBF_log_Gaussian KL (X t) (f_X t) (mu t) (std t))

/-- A concrete instance of the kernel-library interface in which every kernel
and embedding returns zero, used to evaluate the estimators at concrete
inputs.  The estimators treat the library as a black box, so any instance is a
legitimate input. -/
def zeroLib : KernelLib ℚ where
  my_RBF := fun _ _ _ => 0
  my_log_RBF := fun _ _ _ => 0
  my_Matern_12 := fun _ _ _ => 0
  my_Matern_32 := fun _ _ _ => 0
  my_Matern_12_product := fun _ _ _ => 0
  my_Matern_32_product := fun _ _ _ => 0
  kme_RBF_Gaussian := fun _ _ _ _ _ => 0
  kme_RBF_uniform := fun _ _ _ _ _ => 0
  kme_Matern_32_Gaussian := fun _ _ _ => 0
  kme_Matern_12_Gaussian := fun _ _ _ => 0
  kme_Matern_32_Uniform := fun _ _ _ _ _ => 0
  kme_Matern_12_Uniform := fun _ _ _ _ _ => 0
  kme_log_normal_log_RBF := fun _ _ _ _ _ => 0

/-- The contraction `phi^T M f` is linear in the function values `f`. -/
theorem dotProduct_mulVec_add_smul {N : ℕ} (phi : Fin N → F) (M : Matrix (Fin N) (Fin N) F)
    (c1 c2 : F) (f1 f2 : Fin N → F) :
    dotProduct phi (M.mulVec fun i => c1 * f1 i + c2 * f2 i) =
      c1 * dotProduct phi (M.mulVec f1) + c2 * dotProduct phi (M.mulVec f2) := by
  have h : (fun i => c1 * f1 i + c2 * f2 i) = c1 • f1 + c2 • f2 := rfl
  rw [h, Matrix.mulVec_add, Matrix.mulVec_smul, Matrix.mulVec_smul, Matrix.dotProduct_add,
    Matrix.dotProduct_smul, Matrix.dotProduct_smul, smul_eq_mul, smul_eq_mul]

/-- The adjugate-formula inverse of a 1x1 matrix is the scalar reciprocal. -/
theorem matInv_fin_one (M : Matrix (Fin 1) (Fin 1) F) : matInv M = (M 0 0)⁻¹ • 1 := by
  rw [matInv, Matrix.det_fin_one, Matrix.adjugate_fin_one]

/-- On a single sample point the contraction against the inverted regularized
1x1 Gram matrix collapses to scalar division. -/
theorem dotProduct_matInv_regularize_fin_one (K : Matrix (Fin 1) (Fin 1) F)
    (phi f : Fin 1 → F) :
    dotProduct phi ((matInv (regularize K)).mulVec f) =
      phi 0 / (K 0 0 + (eps : F)) * f 0 := by
  rw [matInv_fin_one]
  have h00 : regularize K 0 0 = K 0 0 + (eps : F) := by
    simp [regularize, Matrix.one_apply]
  rw [h00, Matrix.smul_mulVec_assoc, Matrix.one_mulVec]
  simp [Matrix.dotProduct, Fin.sum_univ_one, Pi.smul_apply, smul_eq_mul, div_eq_mul_inv]
  ring

/-- The median model returns zero on a list all of whose entries are zero. -/
theorem npMedian_eq_zero {xs : List F} (h : ∀ x ∈ xs, x = 0) : npMedian xs = 0 := by
  have hs : ∀ x ∈ xs.insertionSort (· ≤ ·), x = (0 : F) := fun x hx =>
    h x (((List.perm_insertionSort (· ≤ ·) xs)).mem_iff.mp hx)
  have hg : ∀ k : ℕ, (xs.insertionSort (· ≤ ·)).getD k 0 = 0 := by
    intro k
    rw [List.getD_eq_getElem?_getD]
    cases hsk : (xs.insertionSort (· ≤ ·))[k]? with
    | none => rfl
    | some x =>
      obtain ⟨hlt, hx⟩ := List.getElem?_eq_some_iff.mp hsk
      exact hs x (hx ▸ List.getElem_mem hlt)
  simp only [npMedian]
  split
  · exact hg _
  · rw [hg, hg]
    norm_num

/-- When all rows of the sample matrix coincide, every column mean equals the
corresponding entry of any row. -/
theorem colMean_const {N D : ℕ} (X : Matrix (Fin N) (Fin D) F) (hN : 0 < N)
    (hconst : ∀ i j : Fin N, X i = X j) (i : Fin N) (j : Fin D) : colMean X j = X i j := by
  have hsum : ∑ k, X k j = (N : F) * X i j := by
    rw [Finset.sum_congr rfl fun k _ => congrFun (hconst k i) j]
    rw [Finset.sum_const, Finset.card_univ, Fintype.card_fin, nsmul_eq_mul]
  rw [colMean, hsum]
  exact mul_div_cancel_left₀ (X i j) (by exact_mod_cast hN.ne')

/-- Every element of the flattened deviation list is an absolute deviation from
a column mean. -/
theorem mem_absDevList {N D : ℕ} {X : Matrix (Fin N) (Fin D) F} {x : F}
    (hx : x ∈ absDevList X) : ∃ i j, x = |X i j - colMean X j| := by
  simp only [absDevList, List.mem_flatMap, List.mem_map, List.mem_finRange, true_and] at hx
  obtain ⟨i, j, rfl⟩ := hx
  exact ⟨i, j, rfl⟩

/-- When all sample points coincide the median heuristic evaluates to zero. -/
theorem medianHeuristic_eq_zero {N D : ℕ} (X : Matrix (Fin N) (Fin D) F) (hN : 0 < N)
    (hconst : ∀ i j : Fin N, X i = X j) : medianHeuristic X = 0 := by
  apply npMedian_eq_zero
  intro x hx
  obtain ⟨i, j, rfl⟩ := mem_absDevList hx
  rw [colMean_const X hN hconst i j]
  simp

/-- C1, counterexample: the claim fails as stated.  At a concrete batch of size
one, the batched RBF-Gaussian estimator raises (its in_axes tuple has five
entries for a four-argument function, modelled as `none`) instead of returning
the vector of single-instance calls on the corresponding slices. -/
theorem rbf_gaussian_vectorized_counterexample :
    KQ_RBF_Gaussian_Vectorized zeroLib (fun _ : Fin 1 => (0 : Matrix (Fin 1) (Fin 1) ℚ))
      (fun _ _ => 0) (fun _ _ => 0) (fun _ => 0) ≠
    some (fun _ : Fin 1 =>
      KQ_RBF_Gaussian zeroLib (0 : Matrix (Fin 1) (Fin 1) ℚ) (fun _ => 0) (fun _ => 0) 0) := by
  simp [KQ_RBF_Gaussian_Vectorized, vmapCheck, inAxes_KQ_RBF_Gaussian_Vectorized]

/-- C1, amended: for the five batched estimators whose in_axes tuple length
matches the arity of the wrapped function (RBF-Uniform, Matern-1/2-Gaussian,
Matern-3/2-Uniform, Matern-1/2-Uniform, log-RBF-log-Gaussian), the batched call
on a batch of size T succeeds and its entry t is the single-instance estimator
applied to slice t of the batched arguments, shared arguments passed whole.
The two remaining variants raise instead (see the counterexample). -/
theorem batched_estimators_match_sliced_single_calls (KL : KernelLib F) {T N D : ℕ}
    (X : Fin T → Matrix (Fin N) (Fin D) F) (f_X : Fin T → Fin N → F) (a b : F)
    (av bv : Fin T → Fin D → F) (mu std : Fin T → F) :
    KQ_RBF_Uniform_Vectorized KL X f_X a b =
      some (fun t => KQ_RBF_Uniform KL (X t) (f_X t) a b) ∧
    KQ_Matern_12_Gaussian_Vectorized KL X f_X =
      some (fun t => KQ_Matern_12_Gaussian KL (X t) (f_X t)) ∧
    KQ_Matern_32_Uniform_Vectorized KL X f_X av bv =
      some (fun t => KQ_Matern_32_Uniform KL (X t) (f_X t) (av t) (bv t)) ∧
    KQ_Matern_12_Uniform_Vectorized KL X f_X a b =
      some (fun t => KQ_Matern_12_Uniform KL (X t) (f_X t) a b) ∧
    KQ_log_RBF_log_Gaussian_Vectorized KL X f_X mu std =
      some (fun t => KQ_log_RBF_log_Gaussian KL (X t) (f_X t) (mu t) (std t)) :=
  ⟨rfl, rfl, rfl, rfl, rfl⟩

/-- C2: `KQ_RBF_Gaussian_Vectorized` and `KQ_Matern_32_Gaussian_Vectorized`
raise on every input: each passes `jax.vmap` an in_axes tuple with more entries
than the wrapped function has parameters (five entries for the four-argument
`KQ_RBF_Gaussian`, three for the two-argument `KQ_Matern_32_Gaussian`), and the
first entry additionally maps the batched argument `X` with axis `None`. -/
theorem gaussian_vectorized_in_axes_mismatch_raises :
    inAxes_KQ_RBF_Gaussian_Vectorized.length = 5 ∧
    inAxes_KQ_RBF_Gaussian_Vectorized = [none, some 0, some 0, some 0, some 0] ∧
    inAxes_KQ_Matern_32_Gaussian_Vectorized.length = 3 ∧
    inAxes_KQ_Matern_32_Gaussian_Vectorized = [none, some 0, some 0] ∧
    (∀ (KL : KernelLib F) {T N D : ℕ} (X : Fin T → Matrix (Fin N) (Fin D) F)
      (f_X : Fin T → Fin N → F) (mu_X_theta : Fin T → Fin D → F)
      (var_X_theta : Fin T → Matrix (Fin D) (Fin D) F),
      KQ_RBF_Gaussian_Vectorized KL X f_X mu_X_theta var_X_theta = none) ∧
    (∀ (KL : KernelLib F) {T N D : ℕ} (X : Fin T → Matrix (Fin N) (Fin D) F)
      (f_X : Fin T → Fin N → F), KQ_Matern_32_Gaussian_Vectorized KL X f_X = none) := by
  refine ⟨rfl, rfl, rfl, rfl, ?_, ?_⟩ <;> intros <;> rfl

/-- C3: every single-instance estimator computes its result by the same four
steps with amplitude `A = 1` and `eps = 1e-6`: choose the length scale per the
variant's policy, form `K = A * kernel(X, X, l)`, invert `K + eps * I`, form
`phi = A * embedding(measure_params, l, X)` and return
`phi^T (K + eps * I)^(-1) f_X` as a scalar. -/
theorem single_estimators_follow_four_step_algorithm (KL : KernelLib F) {N D : ℕ}
    (X : Matrix (Fin N) (Fin D) F) (f_X : Fin N → F) (mu_X_theta : Fin D → F)
    (var_X_theta : Matrix (Fin D) (Fin D) F) (a b : F) (av bv : Fin D → F) (mu0 std0 : F) :
    KQ_RBF_Gaussian KL X f_X mu_X_theta var_X_theta =
      fourStepEstimate 1 (KL.my_RBF X X (medianHeuristic X))
        (KL.kme_RBF_Gaussian mu_X_theta var_X_theta (medianHeuristic X) X) f_X ∧
    KQ_RBF_Uniform KL X f_X a b =
      fourStepEstimate 1 (KL.my_RBF X X (medianHeuristic X))
        (KL.kme_RBF_uniform a b (medianHeuristic X) X) f_X ∧
    KQ_Matern_32_Gaussian KL X f_X =
      fourStepEstimate 1 (KL.my_Matern_32 X X (medianHeuristic X))
        (KL.kme_Matern_32_Gaussian (medianHeuristic X) X) f_X ∧
    KQ_Matern_12_Gaussian KL X f_X =
      fourStepEstimate 1 (KL.my_Matern_12_product X X fun _ => 1)
        (KL.kme_Matern_12_Gaussian (fun _ => 1) X) f_X ∧
    KQ_Matern_32_Uniform KL X f_X av bv =
      fourStepEstimate 1 (KL.my_Matern_32_product X X fun _ => 3)
        (KL.kme_Matern_32_Uniform av bv (fun _ => 3) X) f_X ∧
    KQ_Matern_12_Uniform KL X f_X a b =
      fourStepEstimate 1 (KL.my_Matern_12 X X (medianHeuristic X))
        (KL.kme_Matern_12_Uniform a b (medianHeuristic X) X) f_X ∧
    KQ_log_RBF_log_Gaussian KL X f_X mu0 std0 =
      fourStepEstimate 1 (KL.my_log_RBF X X (1 / 10))
        (KL.kme_log_normal_log_RBF mu0 std0 X (1 / 10)) f_X :=
  ⟨rfl, rfl, rfl, rfl, rfl, rfl, rfl⟩

/-- C4: the variants with a hardcoded length-scale policy use exactly the
constants of the spec table, for every input regardless of the sample set:
Matern-1/2-Gaussian a per-dimension vector of ones, Matern-3/2-Uniform a
per-dimension vector of threes, and log-RBF-log-Gaussian the fixed scalar 0.1,
passed identically to the kernel and the embedding. -/
theorem hardcoded_length_scale_constants (KL : KernelLib F) {N D : ℕ}
    (X : Matrix (Fin N) (Fin D) F) (f_X : Fin N → F) (av bv : Fin D → F) (mu0 std0 : F) :
    KQ_Matern_12_Gaussian KL X f_X =
      fourStepEstimate 1 (KL.my_Matern_12_product X X fun _ => (1 : F))
        (KL.kme_Matern_12_Gaussian (fun _ => (1 : F)) X) f_X ∧
    KQ_Matern_32_Uniform KL X f_X av bv =
      fourStepEstimate 1 (KL.my_Matern_32_product X X fun _ => (3 : F))
        (KL.kme_Matern_32_Uniform av bv (fun _ => (3 : F)) X) f_X ∧
    KQ_log_RBF_log_Gaussian KL X f_X mu0 std0 =
      fourStepEstimate 1 (KL.my_log_RBF X X ((1 : F) / 10))
        (KL.kme_log_normal_log_RBF mu0 std0 X ((1 : F) / 10)) f_X :=
  ⟨rfl, rfl, rfl⟩

/-- C5: the median-heuristic variants (RBF-Gaussian, RBF-Uniform,
Matern-3/2-Gaussian, Matern-1/2-Uniform) compute the length scale as the median
of `|X - mean(X, axis=0)|` collapsed over all entries to a single scalar, and
pass it to both the kernel and the embedding. -/
theorem median_heuristic_length_scale_variants (KL : KernelLib F) {N D : ℕ}
    (X : Matrix (Fin N) (Fin D) F) (f_X : Fin N → F) (mu_X_theta : Fin D → F)
    (var_X_theta : Matrix (Fin D) (Fin D) F) (a b : F) :
    medianHeuristic X =
      npMedian ((List.finRange N).flatMap fun i =>
        (List.finRange D).map fun j => |X i j - (∑ k, X k j) / (N : F)|) ∧
    KQ_RBF_Gaussian KL X f_X mu_X_theta var_X_theta =
      fourStepEstimate 1 (KL.my_RBF X X (medianHeuristic X))
        (KL.kme_RBF_Gaussian mu_X_theta var_X_theta (medianHeuristic X) X) f_X ∧
    KQ_RBF_Uniform KL X f_X a b =
      fourStepEstimate 1 (KL.my_RBF X X (medianHeuristic X))
        (KL.kme_RBF_uniform a b (medianHeuristic X) X) f_X ∧
    KQ_Matern_32_Gaussian KL X f_X =
      fourStepEstimate 1 (KL.my_Matern_32 X X (medianHeuristic X))
        (KL.kme_Matern_32_Gaussian (medianHeuristic X) X) f_X ∧
    KQ_Matern_12_Uniform KL X f_X a b =
      fourStepEstimate 1 (KL.my_Matern_12 X X (medianHeuristic X))
        (KL.kme_Matern_12_Uniform a b (medianHeuristic X) X) f_X :=
  ⟨rfl, rfl, rfl, rfl, rfl⟩

/-- C6: per-variant broadcast pattern of the batched Uniform estimators.
RBF-Uniform and Matern-1/2-Uniform share the scalar bounds `a` and `b` across
the whole batch (in_axes `(0, 0, None, None)`) while `X` and `f_X` vary per
batch element; Matern-3/2-Uniform takes per-batch-element `a` and `b` along
with per-batch `X` and `f_X` (in_axes `(0, 0, 0, 0)`). -/
theorem uniform_vectorized_broadcast_patterns (KL : KernelLib F) {T N D : ℕ}
    (X : Fin T → Matrix (Fin N) (Fin D) F) (f_X : Fin T → Fin N → F) (a b : F)
    (av bv : Fin T → Fin D → F) :
    inAxes_KQ_RBF_Uniform_Vectorized = [some 0, some 0, none, none] ∧
    inAxes_KQ_Matern_12_Uniform_Vectorized = [some 0, some 0, none, none] ∧
    inAxes_KQ_Matern_32_Uniform_Vectorized = [some 0, some 0, some 0, some 0] ∧
    KQ_RBF_Uniform_Vectorized KL X f_X a b =
      some (fun t => KQ_RBF_Uniform KL (X t) (f_X t) a b) ∧
    KQ_Matern_12_Uniform_Vectorized KL X f_X a b =
      some (fun t => KQ_Matern_12_Uniform KL (X t) (f_X t) a b) ∧
    KQ_Matern_32_Uniform_Vectorized KL X f_X av bv =
      some (fun t => KQ_Matern_32_Uniform KL (X t) (f_X t) (av t) (bv t)) :=
  ⟨rfl, rfl, rfl, rfl, rfl, rfl⟩

/-- C7: for every variant, with the sample set and measure parameters fixed,
the map from function values to the estimate is linear:
`estimate(X, c1*f_X1 + c2*f_X2, ...) = c1*estimate(X, f_X1, ...) + c2*estimate(X, f_X2, ...)`
exactly, since the estimate is `phi^T K^(-1) f_X`. -/
theorem estimate_linear_in_function_values (KL : KernelLib F) {N D : ℕ}
    (X : Matrix (Fin N) (Fin D) F) (c1 c2 : F) (f1 f2 : Fin N → F) (mu_X_theta : Fin D → F)
    (var_X_theta : Matrix (Fin D) (Fin D) F) (a b : F) (av bv : Fin D → F) (mu0 std0 : F) :
    KQ_RBF_Gaussian KL X (fun i => c1 * f1 i + c2 * f2 i) mu_X_theta var_X_theta =
      c1 * KQ_RBF_Gaussian KL X f1 mu_X_theta var_X_theta +
      c2 * KQ_RBF_Gaussian KL X f2 mu_X_theta var_X_theta ∧
    KQ_RBF_Uniform KL X (fun i => c1 * f1 i + c2 * f2 i) a b =
      c1 * KQ_RBF_Uniform KL X f1 a b + c2 * KQ_RBF_Uniform KL X f2 a b ∧
    KQ_Matern_32_Gaussian KL X (fun i => c1 * f1 i + c2 * f2 i) =
      c1 * KQ_Matern_32_Gaussian KL X f1 + c2 * KQ_Matern_32_Gaussian KL X f2 ∧
    KQ_Matern_12_Gaussian KL X (fun i => c1 * f1 i + c2 * f2 i) =
      c1 * KQ_Matern_12_Gaussian KL X f1 + c2 * KQ_Matern_12_Gaussian KL X f2 ∧
    KQ_Matern_32_Uniform KL X (fun i => c1 * f1 i + c2 * f2 i) av bv =
      c1 * KQ_Matern_32_Uniform KL X f1 av bv + c2 * KQ_Matern_32_Uniform KL X f2 av bv ∧
    KQ_Matern_12_Uniform KL X (fun i => c1 * f1 i + c2 * f2 i) a b =
      c1 * KQ_Matern_12_Uniform KL X f1 a b + c2 * KQ_Matern_12_Uniform KL X f2 a b ∧
    KQ_log_RBF_log_Gaussian KL X (fun i => c1 * f1 i + c2 * f2 i) mu0 std0 =
      c1 * KQ_log_RBF_log_Gaussian KL X f1 mu0 std0 +
      c2 * KQ_log_RBF_log_Gaussian KL X f2 mu0 std0 := by
  refine ⟨?_, ?_, ?_, ?_, ?_, ?_, ?_⟩ <;> exact dotProduct_mulVec_add_smul _ _ _ _ _ _

/-- C8: for every sample set whose raw Gram matrix is symmetric positive
semidefinite (including the singular case of duplicated points), the
regularized matrix `K + eps * I` has every eigenvalue at least `eps = 1e-6` and
is therefore invertible. -/
theorem regularized_gram_matrix_invertible {N : ℕ} (K : Matrix (Fin N) (Fin N) F)
    (hsymm : K.IsSymm) (hpsd : ∀ v : Fin N → F, 0 ≤ dotProduct v (K.mulVec v)) :
    (∀ (μ : F) (v : Fin N → F), v ≠ 0 → (regularize K).mulVec v = μ • v → (eps : F) ≤ μ) ∧
    IsUnit (regularize K).det := by
  have heps : (0 : F) < eps := by norm_num [eps]
  have hquad : ∀ v : Fin N → F,
      dotProduct v ((regularize K).mulVec v) =
        dotProduct v (K.mulVec v) + (eps : F) * dotProduct v v := by
    intro v
    rw [regularize, Matrix.add_mulVec, Matrix.smul_mulVec_assoc, Matrix.one_mulVec,
      Matrix.dotProduct_add, Matrix.dotProduct_smul, smul_eq_mul]
  have hvv : ∀ v : Fin N → F, v ≠ 0 → 0 < dotProduct v v := by
    intro v hv
    have hnn : 0 ≤ dotProduct v v := Finset.sum_nonneg fun i _ => mul_self_nonneg (v i)
    have hne : dotProduct v v ≠ 0 := fun h0 => hv (Matrix.dotProduct_self_eq_zero.mp h0)
    exact lt_of_le_of_ne hnn (Ne.symm hne)
  constructor
  · intro μ v hv hev
    have h1 : dotProduct v (K.mulVec v) + (eps : F) * dotProduct v v = μ * dotProduct v v := by
      rw [← hquad v, hev, Matrix.dotProduct_smul, smul_eq_mul]
    have h2 : (eps : F) * dotProduct v v ≤ μ * dotProduct v v := by
      have := hpsd v
      linarith
    exact le_of_mul_le_mul_right h2 (hvv v hv)
  · rw [isUnit_iff_ne_zero]
    intro hdet
    obtain ⟨v, hv, hmv⟩ := Matrix.exists_mulVec_eq_zero_iff.mpr hdet
    have h0 := hquad v
    rw [hmv, Matrix.dotProduct_zero] at h0
    have := hpsd v
    nlinarith [mul_pos heps (hvv v hv)]

/-- Witness for C8 at the singular 1x1 Gram matrix of a duplicated point
(the zero matrix): both conclusions hold after discharging symmetry and
positive semidefiniteness there. -/
theorem regularized_gram_matrix_invertible_witness :
    (∀ (μ : ℚ) (v : Fin 1 → ℚ), v ≠ 0 →
      (regularize (0 : Matrix (Fin 1) (Fin 1) ℚ)).mulVec v = μ • v → (eps : ℚ) ≤ μ) ∧
    IsUnit (regularize (0 : Matrix (Fin 1) (Fin 1) ℚ)).det :=
  regularized_gram_matrix_invertible 0 (by simp [Matrix.IsSymm])
    (fun v => by simp [Matrix.zero_mulVec, Matrix.dotProduct_zero])

/-- C9: on a sample set with exactly one point the Gram matrix is 1x1 and every
single-instance estimate reduces to
`(A * embedding_value / (A * kernel_value + eps)) * f_X[0]` with `A = 1`. -/
theorem single_point_estimate_closed_form (KL : KernelLib F) {D : ℕ}
    (X : Matrix (Fin 1) (Fin D) F) (f_X : Fin 1 → F) (mu_X_theta : Fin D → F)
    (var_X_theta : Matrix (Fin D) (Fin D) F) (a b : F) (av bv : Fin D → F) (mu0 std0 : F) :
    KQ_RBF_Gaussian KL X f_X mu_X_theta var_X_theta =
      KL.kme_RBF_Gaussian mu_X_theta var_X_theta (medianHeuristic X) X 0 /
        (KL.my_RBF X X (medianHeuristic X) 0 0 + (eps : F)) * f_X 0 ∧
    KQ_RBF_Uniform KL X f_X a b =
      KL.kme_RBF_uniform a b (medianHeuristic X) X 0 /
        (KL.my_RBF X X (medianHeuristic X) 0 0 + (eps : F)) * f_X 0 ∧
    KQ_Matern_32_Gaussian KL X f_X =
      KL.kme_Matern_32_Gaussian (medianHeuristic X) X 0 /
        (KL.my_Matern_32 X X (medianHeuristic X) 0 0 + (eps : F)) * f_X 0 ∧
    KQ_Matern_12_Gaussian KL X f_X =
      KL.kme_Matern_12_Gaussian (fun _ => 1) X 0 /
        (KL.my_Matern_12_product X X (fun _ => 1) 0 0 + (eps : F)) * f_X 0 ∧
    KQ_Matern_32_Uniform KL X f_X av bv =
      KL.kme_Matern_32_Uniform av bv (fun _ => 3) X 0 /
        (KL.my_Matern_32_product X X (fun _ => 3) 0 0 + (eps : F)) * f_X 0 ∧
    KQ_Matern_12_Uniform KL X f_X a b =
      KL.kme_Matern_12_Uniform a b (medianHeuristic X) X 0 /
        (KL.my_Matern_12 X X (medianHeuristic X) 0 0 + (eps : F)) * f_X 0 ∧
    KQ_log_RBF_log_Gaussian KL X f_X mu0 std0 =
      KL.kme_log_normal_log_RBF mu0 std0 X (1 / 10) 0 /
        (KL.my_log_RBF X X (1 / 10) 0 0 + (eps : F)) * f_X 0 := by
  refine ⟨?_, ?_, ?_, ?_, ?_, ?_, ?_⟩ <;>
  · simp only [KQ_RBF_Gaussian, KQ_RBF_Uniform, KQ_Matern_32_Gaussian, KQ_Matern_12_Gaussian,
      KQ_Matern_32_Uniform, KQ_Matern_12_Uniform, KQ_log_RBF_log_Gaussian, one_smul]
    exact dotProduct_matInv_regularize_fin_one _ _ _

/-- C10: in every median-heuristic variant, if all sample points are identical
(in particular whenever N = 1) the computed length scale is exactly zero, since
every entry of `|X - mean(X, axis=0)|` is zero; the zero length scale is then
passed unchecked to the kernel and embedding functions, as the single-point
instances of RBF-Gaussian and Matern-1/2-Uniform show. -/
theorem median_heuristic_zero_on_identical_points :
    (∀ {N D : ℕ} (X : Matrix (Fin N) (Fin D) F), 0 < N → (∀ i j : Fin N, X i = X j) →
      medianHeuristic X = 0) ∧
    (∀ (KL : KernelLib F) {D : ℕ} (X : Matrix (Fin 1) (Fin D) F) (f_X : Fin 1 → F)
      (mu_X_theta : Fin D → F) (var_X_theta : Matrix (Fin D) (Fin D) F),
      KQ_RBF_Gaussian KL X f_X mu_X_theta var_X_theta =
        fourStepEstimate 1 (KL.my_RBF X X 0)
          (KL.kme_RBF_Gaussian mu_X_theta var_X_theta 0 X) f_X) ∧
    (∀ (KL : KernelLib F) {D : ℕ} (X : Matrix (Fin 1) (Fin D) F) (f_X : Fin 1 → F) (a b : F),
      KQ_Matern_12_Uniform KL X f_X a b =
        fourStepEstimate 1 (KL.my_Matern_12 X X 0)
          (KL.kme_Matern_12_Uniform a b 0 X) f_X) := by
  have hone : ∀ {D : ℕ} (X : Matrix (Fin 1) (Fin D) F), medianHeuristic X = 0 := fun X =>
    medianHeuristic_eq_zero X one_pos fun i j => by rw [Subsingleton.elim i j]
  refine ⟨fun X hN hconst => medianHeuristic_eq_zero X hN hconst, ?_, ?_⟩
  · intro KL D X f_X mu_X_theta var_X_theta
    calc KQ_RBF_Gaussian KL X f_X mu_X_theta var_X_theta
        = fourStepEstimate 1 (KL.my_RBF X X (medianHeuristic X))
            (KL.kme_RBF_Gaussian mu_X_theta var_X_theta (medianHeuristic X) X) f_X := rfl
      _ = fourStepEstimate 1 (KL.my_RBF X X 0)
            (KL.kme_RBF_Gaussian mu_X_theta var_X_theta 0 X) f_X := by rw [hone X]
  · intro KL D X f_X a b
    calc KQ_Matern_12_Uniform KL X f_X a b
        = fourStepEstimate 1 (KL.my_Matern_12 X X (medianHeuristic X))
            (KL.kme_Matern_12_Uniform a b (medianHeuristic X) X) f_X := rfl
      _ = fourStepEstimate 1 (KL.my_Matern_12 X X 0)
            (KL.kme_Matern_12_Uniform a b 0 X) f_X := by rw [hone X]

/-- Witness for C10 at a concrete duplicated sample set: two identical 1-D
points with value 5 give a computed length scale of exactly zero. -/
theorem median_heuristic_zero_on_identical_points_witness :
    0 < 2 ∧ medianHeuristic (Matrix.of fun _ _ => (5 : ℚ) : Matrix (Fin 2) (Fin 1) ℚ) = 0 :=
  ⟨by norm_num,
    median_heuristic_zero_on_identical_points.1
      (Matrix.of fun _ _ => (5 : ℚ) : Matrix (Fin 2) (Fin 1) ℚ) (by norm_num) fun i j => rfl⟩
